import Mathlib

/-!
Shallow embedding of the demetsiiify browser frontend (the import job
lifecycle tracker and its sibling widgets), translated from the
repository's JavaScript sources:

* `src/unnamed/part_001` — the current import page application (Vue
  components JobDisplay, NotificationForm, ErrorDisplay, MetsForm and the
  root app with onJobCreated / onJobDismissed and the per-job EventSource
  message listener);
* `src/static/js/import.js` — an earlier iteration of the same page
  (ResultDisplay.viewerUrl, MetsForm.submitUrl, the root app);
* `src/unnamed/part_000` and `src/static/js/common.js` — the ManifestView
  browsing widget with its own viewerUrl derivation.

JavaScript numbers are modelled as exact rationals extended with NaN and
the two infinities (`JsNum`); absent (undefined) numeric fields coerce to
NaN when they enter arithmetic, as in JavaScript. Signed zeros are
collapsed. Strings are Lean strings; `String.prototype.split("/")` is
re-implemented structurally as `splitSlash` with JavaScript's semantics
(empty segments are kept, the empty string splits to one empty segment).
-/

/-- JavaScript number: an exact rational, NaN, or a signed infinity. -/
inductive JsNum where
  | num (q : ℚ)
  | nan
  | inf
  | ninf
deriving Repr, DecidableEq

/-- JavaScript addition on numbers (NaN propagates, inf + ninf = NaN). -/
def jsAdd : JsNum → JsNum → JsNum
  | JsNum.num a, JsNum.num b => JsNum.num (a + b)
  | JsNum.inf, JsNum.ninf => JsNum.nan
  | JsNum.ninf, JsNum.inf => JsNum.nan
  | JsNum.inf, JsNum.num _ => JsNum.inf
  | JsNum.num _, JsNum.inf => JsNum.inf
  | JsNum.inf, JsNum.inf => JsNum.inf
  | JsNum.ninf, JsNum.num _ => JsNum.ninf
  | JsNum.num _, JsNum.ninf => JsNum.ninf
  | JsNum.ninf, JsNum.ninf => JsNum.ninf
  | _, _ => JsNum.nan

/-- JavaScript subtraction on numbers. -/
def jsSub : JsNum → JsNum → JsNum
  | JsNum.num a, JsNum.num b => JsNum.num (a - b)
  | JsNum.inf, JsNum.inf => JsNum.nan
  | JsNum.ninf, JsNum.ninf => JsNum.nan
  | JsNum.inf, JsNum.num _ => JsNum.inf
  | JsNum.inf, JsNum.ninf => JsNum.inf
  | JsNum.num _, JsNum.ninf => JsNum.inf
  | JsNum.ninf, JsNum.num _ => JsNum.ninf
  | JsNum.ninf, JsNum.inf => JsNum.ninf
  | JsNum.num _, JsNum.inf => JsNum.ninf
  | _, _ => JsNum.nan

/-- JavaScript division on numbers: a finite value divided by zero is a
signed infinity, 0/0 and NaN operands give NaN (signed zeros collapsed). -/
def jsDiv : JsNum → JsNum → JsNum
  | JsNum.num a, JsNum.num b =>
      if b = 0 then (if a = 0 then JsNum.nan else if 0 < a then JsNum.inf else JsNum.ninf)
      else JsNum.num (a / b)
  | JsNum.num _, JsNum.inf => JsNum.num 0
  | JsNum.num _, JsNum.ninf => JsNum.num 0
  | JsNum.inf, JsNum.num b => if 0 ≤ b then JsNum.inf else JsNum.ninf
  | JsNum.ninf, JsNum.num b => if 0 ≤ b then JsNum.ninf else JsNum.inf
  | _, _ => JsNum.nan

/-- Coercion of a possibly-absent (undefined) numeric field into JavaScript
arithmetic: undefined becomes NaN. -/
def jsOfOpt : Option ℚ → JsNum
  | some q => JsNum.num q
  | none => JsNum.nan

/-- One job as the client stores it: the latest status snapshot received
from the server (fields that a given snapshot does not carry are none,
i.e. undefined). From the data model used throughout part_001 and
import.js. -/
structure Job where
  id : String := ""
  status : String := ""
  position : Option ℚ := none
  current_image : Option ℚ := none
  total_images : Option ℚ := none
  result : Option String := none
  message : Option String := none
  traceback : Option String := none
deriving Repr, DecidableEq

/-- JobDisplay data() in part_001 line 18 (and import.js line 57): the
fixed queue-length denominator captured when the component is created,
queueLength = job.position + 1. -/
def initialQueueLength (job : Job) : JsNum :=
  jsAdd (jsOfOpt job.position) (JsNum.num 1)

/-- JobDisplay.completionRatio, part_001 lines 71-79: for a queued job
((queueLength + 1) - (position + 1)) / (queueLength + 1), for a started
job current_image / total_images, otherwise null (none). `queueLength`
is the component-local datum captured at creation. -/
def completionRatio (queueLength : JsNum) (job : Job) : Option JsNum :=
  if job.status = "queued" then
    some (jsDiv (jsSub (jsAdd queueLength (JsNum.num 1))
                       (jsAdd (jsOfOpt job.position) (JsNum.num 1)))
                (jsAdd queueLength (JsNum.num 1)))
  else if job.status = "started" then
    some (jsDiv (jsOfOpt job.current_image) (jsOfOpt job.total_images))
  else
    none

/-- JobDisplay.completionRatio of the earlier iteration, import.js lines
80-88: for a queued job (queueLength - position + 1) / queueLength. -/
def completionRatioOld (queueLength : JsNum) (job : Job) : Option JsNum :=
  if job.status = "queued" then
    some (jsDiv (jsAdd (jsSub queueLength (jsOfOpt job.position)) (JsNum.num 1))
                queueLength)
  else if job.status = "started" then
    some (jsDiv (jsOfOpt job.current_image) (jsOfOpt job.total_images))
  else
    none

/-- Modelled from the spec (section 4.3), for comparison with
`completionRatio`: ratio for a queued job is
(queueLengthAtSubscribe - position) / queueLengthAtSubscribe. -/
def specQueuedRatio (queueLengthAtSubscribe position : ℚ) : ℚ :=
  (queueLengthAtSubscribe - position) / queueLengthAtSubscribe

/-- Helper for `splitSlash`, structural on the character list; `acc` holds
the current segment reversed. -/
def splitSlashAux : List Char → List Char → List String
  | [], acc => [String.mk acc.reverse]
  | c :: rest, acc =>
      if c = '/' then String.mk acc.reverse :: splitSlashAux rest []
      else splitSlashAux rest (c :: acc)

/-- JavaScript str.split("/"): empty segments are kept and the empty
string yields one empty segment. -/
def splitSlash (s : String) : List String :=
  splitSlashAux s.toList []

/-- Normalisation of a JavaScript array index for slice/splice: negative
indices count from the end (clamped at 0), nonnegative ones are clamped
at the length. -/
def jsNormIdx (len : Nat) (i : Int) : Nat :=
  if i < 0 then ((len : Int) + i).toNat else min i.toNat len

/-- JavaScript arr.slice(start) with one argument. -/
def jsSliceFrom (xs : List String) (start : Int) : List String :=
  xs.drop (jsNormIdx xs.length start)

/-- JavaScript arr.slice(start, stop) with two arguments. -/
def jsSliceBetween (xs : List String) (start stop : Int) : List String :=
  (xs.take (jsNormIdx xs.length stop)).drop (jsNormIdx xs.length start)

/-- JavaScript arr.splice(start) with one argument: removes every element
from the normalised start index on and returns the removed elements. This
is the list it returns. -/
def jsSpliceFrom (xs : List String) (start : Int) : List String :=
  xs.drop (jsNormIdx xs.length start)

/-- JavaScript arr[0]: the first element, or undefined (none) when the
array is empty. -/
def jsHead (xs : List String) : Option String :=
  xs.head?

/-- Interpolating a possibly-undefined string into a template literal (or
concatenating it): undefined renders as the text "undefined". -/
def jsTemplateOpt : Option String → String
  | some s => s
  | none => "undefined"

/-- JobDisplay.viewerUrl, part_001 lines 80-85: when job.result is truthy,
"/view/" followed by result.split("/").splice(-2)[0]; otherwise the
computed property returns undefined (none). -/
def viewerUrl (job : Job) : Option String :=
  match job.result with
  | some r =>
      if r = "" then none
      else some ("/view/" ++ jsTemplateOpt (jsHead (jsSpliceFrom (splitSlash r) (-2))))
  | none => none

/-- ResultDisplay.viewerUrl, import.js lines 47-49: "/view/" plus
id.split("/").slice(-2)[0] applied to the manifest @id string. -/
def resultDisplayViewerUrl (manifestId : String) : String :=
  "/view/" ++ jsTemplateOpt (jsHead (jsSliceFrom (splitSlash manifestId) (-2)))

/-- ManifestView.viewerUrl, common.js lines 51-53: "/view/" plus
id.split("/").slice(-2)[0] in a template literal. -/
def commonViewerUrl (manifestId : String) : String :=
  "/view/" ++ jsTemplateOpt (jsHead (jsSliceFrom (splitSlash manifestId) (-2)))

/-- ManifestView.viewerUrl, part_000 lines 40-42: "/view/" plus
id.split("/").slice(-2, 2) — the two-argument slice — interpolated into a
template literal, which stringifies the resulting array by joining with
commas. -/
def manifestViewViewerUrl (manifestId : String) : String :=
  "/view/" ++ String.intercalate "," (jsSliceBetween (splitSlash manifestId) (-2) 2)

/-- Vue's $set on an object modelled as an association list: overwrite the
entry when the key exists, append it otherwise. -/
def setAssoc {α : Type} (m : List (String × α)) (k : String) (v : α) : List (String × α) :=
  if m.any (fun p => p.1 == k) then m.map (fun p => if p.1 == k then (k, v) else p)
  else m ++ [(k, v)]

/-- Vue's $delete on an object modelled as an association list: drop every
entry with the key (a no-op when absent). -/
def eraseAssoc {α : Type} (m : List (String × α)) (k : String) : List (String × α) :=
  m.filter (fun p => p.1 != k)

/-- Property lookup on an association-list object: undefined (none) when
the key is absent. -/
def getAssoc {α : Type} (m : List (String × α)) (k : String) : Option α :=
  (m.find? (fun p => p.1 == k)).map (fun p => p.2)

/-- JavaScript arr.indexOf(x): the index of the first occurrence, or -1
when absent. -/
def jsIndexOf : List String → String → Int
  | [], _ => -1
  | y :: ys, x =>
      if y = x then 0
      else
        let r := jsIndexOf ys x
        if r = -1 then -1 else r + 1

/-- JavaScript arr.splice(start, 1): remove one element at the normalised
start index. This is the mutated array (the removed elements are unused
at the call sites). -/
def jsSpliceOne {α : Type} (xs : List α) (start : Int) : List α :=
  let s := jsNormIdx xs.length start
  xs.take s ++ xs.drop (s + 1)

/-- Root-app state of part_001 lines 310-315 (identical in import.js):
jobIds keeps insertion order, jobs maps id to the latest snapshot, streams
maps id to its EventSource; the Bool records whether the channel is still
open (true) or has been closed (false). -/
structure AppState where
  jobIds : List String := []
  jobs : List (String × Job) := []
  streams : List (String × Bool) := []
deriving Repr, DecidableEq

/-- Root-app onJobCreated, part_001 lines 352-363: push the id onto
jobIds, $set the job into jobs, open an EventSource for the job and $set
it into streams. (The message listener it installs is `onStreamMessage`
below.) -/
def onJobCreated (s : AppState) (job : Job) : AppState :=
  { jobIds := s.jobIds ++ [job.id]
    jobs := setAssoc s.jobs job.id job
    streams := setAssoc s.streams job.id true }

/-- JavaScript property access event.data.status where event.data is the
raw message string: a string primitive has no "status" property, so the
access always yields undefined (none). -/
def stringStatusAccess (_raw : String) : Option String :=
  none

/-- The EventSource message listener installed by onJobCreated, part_001
lines 357-362: $set the parsed snapshot (JSON.parse(event.data)) into
jobs under the captured job id, then close the stream if
event.data.status — a property access on the raw string event.data, not
on the parsed object — is "finished" or "failed". `raw` is the raw
event.data string, `parsed` its JSON.parse result. -/
def onStreamMessage (s : AppState) (jobId : String) (raw : String) (parsed : Job) : AppState :=
  let s1 : AppState := { s with jobs := setAssoc s.jobs jobId parsed }
  if stringStatusAccess raw = some "finished" ∨ stringStatusAccess raw = some "failed" then
    { s1 with streams := setAssoc s1.streams jobId false }
  else
    s1

/-- The message listener of the earlier iteration, import.js lines
241-243: it only $sets the parsed snapshot, with no close call at all. -/
def onStreamMessageOld (s : AppState) (jobId : String) (parsed : Job) : AppState :=
  { s with jobs := setAssoc s.jobs jobId parsed }

/-- Root-app onJobDismissed, part_001 lines 365-368 (identical in
import.js lines 246-249): jobIds.splice(jobIds.indexOf(jobId), 1) and
$delete(jobs, jobId). The streams entry is not touched and no close is
called. -/
def onJobDismissed (s : AppState) (jobId : String) : AppState :=
  { s with
    jobIds := jsSpliceOne s.jobIds (jsIndexOf s.jobIds jobId)
    jobs := eraseAssoc s.jobs jobId }

/-- MetsForm component state, part_001 lines 215-225, together with the
subscriptionAddress field assigned by onSubscribeToNotifications (line
304). -/
structure MetsForm where
  metsUrl : String := ""
  errorMessage : Option String := none
  traceback : Option String := none
  invalid : Bool := false
  showNotificationForm : Bool := true
  subscribedToNotifications : Bool := false
  subscriptionAddress : String := ""
  isLoading : Bool := false
deriving Repr, DecidableEq

/-- MetsForm data() initial state, part_001 lines 215-225. -/
def initialMetsForm : MetsForm := {}

/-- MetsForm.isDisabled, part_001 lines 254-256: invalid or errorMessage
strictly distinct from null; this is the value bound to the submit
button's disabled attribute. -/
def isDisabled (f : MetsForm) : Bool :=
  f.invalid || f.errorMessage.isSome

/-- The synchronous beginning of MetsForm.submitUrl, part_001 lines
274-277: set isLoading and issue the POST; nothing else changes until a
response arrives. -/
def submitStart (f : MetsForm) : MetsForm :=
  { f with isLoading := true }

/-- One POST to a notification endpoint as the client issues it: the
recipient and the list of job ids the request body carries. -/
structure NotifyRequest where
  recipient : String
  jobs : List String
deriving Repr, DecidableEq

/-- NotificationForm.registerForNotifications, part_001 lines 143-147:
the request body posted to /api/tasks/notify carries the recipient and
the jobIds list as they are at the moment of submission. -/
def registerForNotifications (recipient : String) (jobIds : List String) : NotifyRequest :=
  { recipient := recipient, jobs := jobIds }

/-- The success handler of MetsForm.submitUrl, part_001 lines 278-287:
clear errorMessage, reset metsUrl to the empty string, emit the new job
(handled by onJobCreated), and, when subscribedToNotifications is set,
POST an extra notification request for just the new job id to
/api/notify; finally clear isLoading. Returns the new form state and the
notification requests issued by this handler. -/
def submitSuccess (f : MetsForm) (newJobId : String) : MetsForm × List NotifyRequest :=
  ({ f with errorMessage := none, metsUrl := "", isLoading := false },
   if f.subscribedToNotifications then
     [{ recipient := f.subscriptionAddress, jobs := [newJobId] }]
   else [])

/-- The structured body of an HTTP error response, err.response.data:
either field may be absent. -/
structure ErrResponse where
  message : Option String := none
  traceback : Option String := none
deriving Repr, DecidableEq

/-- JavaScript truthiness of a possibly-absent string: undefined and the
empty string are falsy. -/
def jsTruthyOpt : Option String → Bool
  | none => false
  | some s => !(s == "")

/-- The three user-visible outcomes of a failed submission. -/
inductive Outcome where
  | inlineMessage (m : String)
  | tracebackPanel (t : String)
  | consoleLog
deriving Repr, DecidableEq

/-- The error handler of MetsForm.submitUrl, part_001 lines 288-295, as a
classification: err is none when no structured response was received
(err.response undefined). The branches mirror the if / else if / else
chain on err.response.data.message and err.response.data.traceback. -/
def classifySubmitError (err : Option ErrResponse) : Outcome :=
  match err with
  | none => Outcome.consoleLog
  | some r =>
      if jsTruthyOpt r.message then Outcome.inlineMessage (r.message.getD "")
      else if jsTruthyOpt r.traceback then Outcome.tracebackPanel (r.traceback.getD "")
      else Outcome.consoleLog

/-- The same error handler as a state transition on the form, part_001
lines 288-297. -/
def submitFailure (f : MetsForm) (err : Option ErrResponse) : MetsForm :=
  match err with
  | none => { f with isLoading := false }
  | some r =>
      if jsTruthyOpt r.message then { f with errorMessage := r.message, isLoading := false }
      else if jsTruthyOpt r.traceback then { f with traceback := r.traceback, isLoading := false }
      else { f with isLoading := false }

/-- ErrorDisplay component state, part_001 lines 171-176: the traceback
text starts hidden. -/
structure ErrorDisplayState where
  showTraceback : Bool
deriving Repr, DecidableEq

/-- ErrorDisplay data() initial state, part_001 line 173. -/
def initialErrorDisplay : ErrorDisplayState := { showTraceback := false }

/-- Whether the MetsForm template renders the inline error message span,
part_001 line 239: v-if="errorMessage". -/
def showsInlineMessage (f : MetsForm) : Bool :=
  jsTruthyOpt f.errorMessage

/-- Whether the MetsForm template renders the ErrorDisplay panel,
part_001 line 250: v-if="!errorMessage and traceback". -/
def showsTracebackPanel (f : MetsForm) : Bool :=
  !jsTruthyOpt f.errorMessage && jsTruthyOpt f.traceback

/-! Supporting lemmas about the association-list and array primitives. -/

/-- After overwriting the entry for k in a map that contains k, find?
locates the overwritten entry. -/
theorem find?_map_overwrite {α : Type} (k : String) (v : α) :
    ∀ m : List (String × α), m.any (fun p => p.1 == k) = true →
      (m.map (fun p => if p.1 == k then (k, v) else p)).find? (fun p => p.1 == k)
        = some (k, v) := by
  intro m
  induction m with
  | nil => intro h; simp at h
  | cons q m ih =>
      intro h
      by_cases hq : (q.1 == k) = true
      · rw [List.map_cons, if_pos hq]
        exact List.find?_cons_of_pos _ (by simp)
      · have h' : m.any (fun p => p.1 == k) = true := by
          simp only [List.any_cons, hq, Bool.false_or] at h
          exact h
        rw [List.map_cons, if_neg hq, List.find?_cons_of_neg _ (by simpa using hq)]
        exact ih h'

/-- Looking up the key just written by setAssoc yields the written
value. -/
theorem getAssoc_setAssoc {α : Type} (m : List (String × α)) (k : String) (v : α) :
    getAssoc (setAssoc m k v) k = some v := by
  unfold setAssoc getAssoc
  by_cases h : m.any (fun p => p.1 == k) = true
  · simp only [h, if_true, find?_map_overwrite k v m h, Option.map_some']
  · simp only [h, if_false, List.find?_append]
    have hnone : m.find? (fun p => p.1 == k) = none := by
      rw [List.find?_eq_none]
      intro x hx hpx
      exact h (List.any_eq_true.mpr ⟨x, hx, hpx⟩)
    simp [hnone]

/-- After eraseAssoc the key is gone. -/
theorem getAssoc_eraseAssoc {α : Type} (m : List (String × α)) (k : String) :
    getAssoc (eraseAssoc m k) k = none := by
  unfold eraseAssoc getAssoc
  have : (m.filter (fun p => p.1 != k)).find? (fun p => p.1 == k) = none := by
    rw [List.find?_eq_none]
    intro x hx hpx
    rcases List.mem_filter.mp hx with ⟨-, hbne⟩
    simp [bne] at hbne
    simp [hbne] at hpx
  simp [this]

/-- Erasing an absent key is a no-op. -/
theorem eraseAssoc_not_mem {α : Type} (m : List (String × α)) (k : String)
    (h : getAssoc m k = none) : eraseAssoc m k = m := by
  unfold getAssoc at h
  rw [Option.map_eq_none'] at h
  rw [List.find?_eq_none] at h
  unfold eraseAssoc
  rw [List.filter_eq_self]
  intro a ha
  have := h a ha
  simpa [bne] using this

/-- The first occurrence found by jsIndexOf: its index is in range, and
removing one element there is List.erase. -/
theorem jsIndexOf_mem_spec (x : String) :
    ∀ xs : List String, x ∈ xs →
      ∃ n : Nat, jsIndexOf xs x = (n : Int) ∧ n < xs.length ∧
        xs.take n ++ xs.drop (n + 1) = xs.erase x := by
  intro xs
  induction xs with
  | nil => intro h; simp at h
  | cons y ys ih =>
      intro h
      by_cases hy : y = x
      · subst hy
        exact ⟨0, by simp [jsIndexOf], by simp, by simp⟩
      · have hx : x ∈ ys := by
          rcases List.mem_cons.mp h with h1 | h1
          · exact absurd h1.symm hy
          · exact h1
        obtain ⟨n, h1, h2, h3⟩ := ih hx
        refine ⟨n + 1, ?_, by simpa using Nat.succ_lt_succ h2, ?_⟩
        · have hne : (n : Int) ≠ -1 := by omega
          simp only [jsIndexOf, if_neg hy, h1, if_neg hne]
          push_cast
          ring
        · have he : (y :: ys).erase x = y :: ys.erase x :=
            List.erase_cons_tail (by simp [hy])
          simp [List.take_succ_cons, List.drop_succ_cons, he, h3]

/-- splice(indexOf(x), 1) removes exactly the first occurrence of a
present element: it is List.erase. -/
theorem jsSpliceOne_indexOf {xs : List String} {x : String} (h : x ∈ xs) :
    jsSpliceOne xs (jsIndexOf xs x) = xs.erase x := by
  obtain ⟨n, h1, h2, h3⟩ := jsIndexOf_mem_spec x xs h
  rw [h1]
  unfold jsSpliceOne jsNormIdx
  have hneg : ¬((n : Int) < 0) := by omega
  simp only [if_neg hneg, Int.toNat_ofNat, Nat.min_eq_left (Nat.le_of_lt h2)]
  exact h3

/-- indexOf of an absent element is -1. -/
theorem jsIndexOf_not_mem {xs : List String} {x : String} (h : x ∉ xs) :
    jsIndexOf xs x = -1 := by
  induction xs with
  | nil => rfl
  | cons y ys ih =>
      simp only [List.mem_cons, not_or] at h
      obtain ⟨h1, h2⟩ := h
      have hy : y ≠ x := fun e => h1 e.symm
      simp [jsIndexOf, if_neg hy, ih h2]

/-- splice(-1, 1) removes the last element. -/
theorem jsSpliceOne_neg_one {α : Type} (xs : List α) : jsSpliceOne xs (-1) = xs.dropLast := by
  unfold jsSpliceOne jsNormIdx
  cases xs with
  | nil => rfl
  | cons y ys =>
      have hlt : (-1 : Int) < 0 := by omega
      have htn : (((y :: ys).length : Int) + -1).toNat = ys.length := by
        simp only [List.length_cons]
        omega
      simp only [if_pos hlt, htn]
      have hdrop : (y :: ys).drop (ys.length + 1) = [] := by
        simp
      rw [hdrop, List.append_nil, List.dropLast_eq_take]
      simp

/-- The message listener never touches the streams map: the close branch
is dead code (see stringStatusAccess). -/
theorem onStreamMessage_streams (s : AppState) (jobId raw : String) (parsed : Job) :
    (onStreamMessage s jobId raw parsed).streams = s.streams := by
  simp [onStreamMessage, stringStatusAccess]

/-- The message listener never touches the order sequence. -/
theorem onStreamMessage_jobIds (s : AppState) (jobId raw : String) (parsed : Job) :
    (onStreamMessage s jobId raw parsed).jobIds = s.jobIds := by
  simp [onStreamMessage, stringStatusAccess]

/-- The message listener replaces the stored job wholesale. -/
theorem onStreamMessage_jobs (s : AppState) (jobId raw : String) (parsed : Job) :
    (onStreamMessage s jobId raw parsed).jobs = setAssoc s.jobs jobId parsed := by
  simp [onStreamMessage, stringStatusAccess]

/-! Concrete fixtures used by the closed theorems below. -/

/-- A queued creation-response snapshot for job abc at queue position 2. -/
def queuedJobAbc : Job := { id := "abc", status := "queued", position := some 2 }

/-- A started snapshot for job abc. -/
def startedJobAbc : Job := { id := "abc", status := "started", current_image := some 5, total_images := some 10 }

/-- A finished snapshot for job abc. -/
def finishedJobAbc : Job := { id := "abc", status := "finished", result := some "https://example.org/iiif/xyz/manifest.json" }

/-- The raw event.data text of a finished snapshot: a JSON string, not an
object. -/
def rawFinishedAbc : String := "\x7b\"id\": \"abc\", \"status\": \"finished\"\x7d"

/-- The app state after creating job abc from its queued response. -/
def appAbc : AppState := onJobCreated { jobIds := [], jobs := [], streams := [] } queuedJobAbc

/-- A two-job store used for the removal claims. -/
def appTwo : AppState :=
  onJobCreated (onJobCreated { jobIds := [], jobs := [], streams := [] } queuedJobAbc)
    { id := "def", status := "queued", position := some 3 }

/-- A MetsForm that has completed a notification subscription for
user@example.org. -/
def subscribedForm : MetsForm :=
  { initialMetsForm with subscribedToNotifications := true, subscriptionAddress := "user@example.org" }

example : splitSlash "a/b/c" = ["a", "b", "c"] := by decide
example : splitSlash "" = [""] := by decide
example : splitSlash "a/" = ["a", ""] := by decide
example : viewerUrl { status := "finished", result := some "https://example.org/iiif/xyz/manifest.json" } = some "/view/xyz" := by decide
example : manifestViewViewerUrl "https://example.org/iiif/xyz/manifest.json" = "/view/" := by decide
example : completionRatio (JsNum.num 2) { status := "queued", position := some 0 } = some (JsNum.num (2 / 3)) := by
  simp [completionRatio, jsAdd, jsSub, jsDiv, jsOfOpt]
  norm_num

/-! Claim theorems. -/

/-- C1: the spec says that upon applying a snapshot whose status is
finished or failed the manager closes the channel as its final act. The
code evaluated at that very input does not: the close condition tests
event.data.status on the raw JSON string (always undefined), so the
channel of job abc stays open after a finished snapshot is applied, and a
further snapshot is still applied to the job afterwards. -/
theorem c1_terminal_snapshot_leaves_channel_open :
    (onStreamMessage appAbc "abc" rawFinishedAbc finishedJobAbc).streams = [("abc", true)] ∧
    getAssoc (onStreamMessage appAbc "abc" rawFinishedAbc finishedJobAbc).jobs "abc"
      = some finishedJobAbc ∧
    getAssoc (onStreamMessage (onStreamMessage appAbc "abc" rawFinishedAbc finishedJobAbc)
        "abc" rawFinishedAbc startedJobAbc).jobs "abc" = some startedJobAbc := by
  refine ⟨?_, ?_, ?_⟩ <;> decide

/-- C2 counterexample: dismissing job abc does not close its channel
(streams still holds the open EventSource) and a stale in-flight message
for abc afterwards is not a no-op: it re-inserts abc into the byId
mapping. -/
theorem c2_counterexample :
    (onJobDismissed appAbc "abc").jobIds = [] ∧
    getAssoc (onJobDismissed appAbc "abc").jobs "abc" = none ∧
    (onJobDismissed appAbc "abc").streams = [("abc", true)] ∧
    getAssoc (onStreamMessage (onJobDismissed appAbc "abc") "abc" rawFinishedAbc
        finishedJobAbc).jobs "abc" = some finishedJobAbc := by
  refine ⟨?_, ?_, ?_, ?_⟩ <;> decide

/-- C2 (amended): dismissing a job removes its id from both the order
sequence and the byId mapping, but does not close its channel (the
streams map is untouched); a stale in-flight message for the dismissed id
is not a no-op: it re-inserts the job into byId, though the order
sequence stays without the id. -/
theorem c2_dismiss_then_stale_message (s : AppState) (jobId : String)
    (hnd : s.jobIds.Nodup) (hmem : jobId ∈ s.jobIds) :
    (onJobDismissed s jobId).jobIds = s.jobIds.erase jobId ∧
    jobId ∉ (onJobDismissed s jobId).jobIds ∧
    getAssoc (onJobDismissed s jobId).jobs jobId = none ∧
    (onJobDismissed s jobId).streams = s.streams ∧
    (∀ raw : String, ∀ parsed : Job,
      getAssoc (onStreamMessage (onJobDismissed s jobId) jobId raw parsed).jobs jobId
          = some parsed ∧
      (onStreamMessage (onJobDismissed s jobId) jobId raw parsed).jobIds
          = (onJobDismissed s jobId).jobIds) := by
  have hids : (onJobDismissed s jobId).jobIds = s.jobIds.erase jobId := by
    simp [onJobDismissed, jsSpliceOne_indexOf hmem]
  refine ⟨hids, ?_, ?_, rfl, ?_⟩
  · rw [hids]
    exact hnd.not_mem_erase
  · simp [onJobDismissed, getAssoc_eraseAssoc]
  · intro raw parsed
    exact ⟨by rw [onStreamMessage_jobs, getAssoc_setAssoc],
           onStreamMessage_jobIds _ _ _ _⟩

/-- C2 witness: the amended dismissal behavior instantiated on the
one-job store. -/
theorem c2_dismiss_witness :
    appAbc.jobIds.Nodup ∧ "abc" ∈ appAbc.jobIds ∧
    (onJobDismissed appAbc "abc").jobIds = appAbc.jobIds.erase "abc" :=
  ⟨by decide, by decide, (c2_dismiss_then_stale_message appAbc "abc" (by decide) (by decide)).1⟩

/-- C3 counterexample: for a job first observed at queue position 1 the
fixed denominator is queueLengthAtSubscribe = 2; when the position
reaches 0 the code computes ((2 + 1) - (0 + 1)) / (2 + 1) = 2/3, not the
1 the claim requires, and not the claimed formula
(queueLengthAtSubscribe - position) / queueLengthAtSubscribe = 1. -/
theorem c3_counterexample :
    initialQueueLength { id := "abc", status := "queued", position := some 1 } = JsNum.num 2 ∧
    completionRatio (JsNum.num 2) { id := "abc", status := "queued", position := some 0 }
      = some (JsNum.num (2 / 3)) ∧
    specQueuedRatio 2 0 = 1 ∧
    (2 : ℚ) / 3 ≠ 1 ∧
    completionRatio (JsNum.num 2) { id := "abc", status := "queued", position := some 0 }
      ≠ some (JsNum.num (specQueuedRatio 2 0)) := by
  have h1 : initialQueueLength { id := "abc", status := "queued", position := some 1 }
      = JsNum.num 2 := by
    simp [initialQueueLength, jsOfOpt, jsAdd]
    norm_num
  have h2 : completionRatio (JsNum.num 2) { id := "abc", status := "queued", position := some 0 }
      = some (JsNum.num (2 / 3)) := by
    simp [completionRatio, jsAdd, jsSub, jsDiv, jsOfOpt]
    norm_num
  have h3 : specQueuedRatio 2 0 = 1 := by
    norm_num [specQueuedRatio]
  have h4 : (2 : ℚ) / 3 ≠ 1 := by norm_num
  refine ⟨h1, h2, h3, h4, ?_⟩
  rw [h2, h3]
  simp
  norm_num

/-- C3 (amended): for a queued job with the denominator fixed at first
observation, the code computes
(queueLengthAtSubscribe - position) / (queueLengthAtSubscribe + 1): it is
non-increasing in position, lies in [0,1] while 0 ≤ position ≤
queueLengthAtSubscribe, equals exactly 0 when position =
queueLengthAtSubscribe, but at position = 0 it equals
queueLengthAtSubscribe / (queueLengthAtSubscribe + 1), strictly below 1:
the bar never reaches exactly 1. -/
theorem c3_queued_ratio (Q p : ℚ) (hp : 0 ≤ p) (hpQ : p ≤ Q) (hQ : 0 < Q) :
    completionRatio (JsNum.num Q) { id := "abc", status := "queued", position := some p }
      = some (JsNum.num ((Q - p) / (Q + 1))) ∧
    (∀ p₁ p₂ : ℚ, p₁ ≤ p₂ → (Q - p₂) / (Q + 1) ≤ (Q - p₁) / (Q + 1)) ∧
    0 ≤ (Q - p) / (Q + 1) ∧
    (Q - p) / (Q + 1) < 1 ∧
    (p = Q → (Q - p) / (Q + 1) = 0) ∧
    (p = 0 → (Q - p) / (Q + 1) = Q / (Q + 1) ∧ Q / (Q + 1) < 1) := by
  have hQ1 : (0 : ℚ) < Q + 1 := by linarith
  have harg : Q + 1 - (p + 1) = Q - p := by ring
  refine ⟨?_, ?_, ?_, ?_, ?_, ?_⟩
  · simp [completionRatio, jsOfOpt, jsAdd, jsSub, jsDiv, hQ1.ne', harg]
  · intro p₁ p₂ h12
    gcongr
  · exact div_nonneg (by linarith) (by linarith)
  · exact (div_lt_one hQ1).mpr (by linarith)
  · intro he
    rw [he, sub_self, zero_div]
  · intro he
    rw [he, sub_zero]
    exact ⟨rfl, (div_lt_one hQ1).mpr (by linarith)⟩

/-- C3 witness: the amended queued ratio at queueLengthAtSubscribe = 2
and position = 1. -/
theorem c3_queued_ratio_witness :
    (0 : ℚ) ≤ 1 ∧ (1 : ℚ) ≤ 2 ∧ (0 : ℚ) < 2 ∧
    completionRatio (JsNum.num 2) { id := "abc", status := "queued", position := some 1 }
      = some (JsNum.num ((2 - 1) / (2 + 1))) :=
  ⟨by norm_num, by norm_num, by norm_num,
   (c3_queued_ratio 2 1 (by norm_num) (by norm_num) (by norm_num)).1⟩

/-- C4 counterexample: for a started job the claim demands a null
("indeterminate") ratio when total_images is absent or 0; the code
instead computes a JavaScript division whose value is NaN (absent) or
Infinity (zero with a positive numerator) — a non-numeric or
out-of-range value, never null. -/
theorem c4_counterexample :
    completionRatio (JsNum.num 2)
        { id := "abc", status := "started", current_image := some 5 }
      = some JsNum.nan ∧
    some JsNum.nan ≠ (none : Option JsNum) ∧
    completionRatio (JsNum.num 2)
        { id := "abc", status := "started", current_image := some 5, total_images := some 0 }
      = some JsNum.inf := by
  refine ⟨?_, by simp, ?_⟩
  · simp [completionRatio, jsDiv, jsOfOpt]
  · simp [completionRatio, jsDiv, jsOfOpt]

/-- C4 (amended): for a started job the ratio is the JavaScript division
current_image / total_images: the exact quotient when total_images is a
nonzero number, NaN when either field is absent or both are zero,
Infinity when total_images is 0 and current_image positive; it is never
null for a started job. -/
theorem c4_started_ratio (q : JsNum) (cur tot : ℚ) :
    (tot ≠ 0 →
      completionRatio q
          { id := "abc", status := "started", current_image := some cur, total_images := some tot }
        = some (JsNum.num (cur / tot))) ∧
    (completionRatio q
          { id := "abc", status := "started", current_image := some cur, total_images := none }
        = some JsNum.nan) ∧
    (0 < cur →
      completionRatio q
          { id := "abc", status := "started", current_image := some cur, total_images := some 0 }
        = some JsNum.inf) ∧
    (completionRatio q
          { id := "abc", status := "started", current_image := some 0, total_images := some 0 }
        = some JsNum.nan) ∧
    (∀ c t : Option ℚ,
      completionRatio q { id := "abc", status := "started", current_image := c, total_images := t }
        ≠ none) := by
  refine ⟨?_, ?_, ?_, ?_, ?_⟩
  · intro h
    simp [completionRatio, jsDiv, jsOfOpt, h]
  · simp [completionRatio, jsDiv, jsOfOpt]
  · intro h
    simp [completionRatio, jsDiv, jsOfOpt, h.ne', h]
  · simp [completionRatio, jsDiv, jsOfOpt]
  · intro c t
    simp [completionRatio]

/-- C4 witness: the amended started ratio at 5 of 10 images. -/
theorem c4_started_ratio_witness :
    (10 : ℚ) ≠ 0 ∧
    completionRatio (JsNum.num 2)
        { id := "abc", status := "started", current_image := some 5, total_images := some 10 }
      = some (JsNum.num (5 / 10)) :=
  ⟨by norm_num, (c4_started_ratio (JsNum.num 2) 5 10).1 (by norm_num)⟩

/-- C5 counterexample: immediately after submitUrl issues its request
the form has isLoading set, yet the submit button's disabled binding is
still false on a fresh form, so a second click could issue a second
creation request while the first is in flight. -/
theorem c5_counterexample :
    (submitStart initialMetsForm).isLoading = true ∧
    isDisabled (submitStart initialMetsForm) = false := by
  exact ⟨rfl, rfl⟩

/-- C5 (amended): while a creation request is in flight the form only
carries the is-loading styling flag; the disabled binding is unchanged by
submission and depends only on the invalid flag and the presence of an
error message, so the code itself does not prevent a duplicate
submission. -/
theorem c5_inflight_not_disabled (f : MetsForm) :
    isDisabled (submitStart f) = isDisabled f ∧
    (submitStart f).isLoading = true ∧
    isDisabled f = (f.invalid || f.errorMessage.isSome) := by
  exact ⟨rfl, rfl, rfl⟩

/-- C6: a failed submission resolves to exactly one of the three
outcomes; a response carrying a (truthy) message yields the inline
message, a response without one but carrying a traceback yields the
traceback panel, and a missing structured response yields the console
log; the traceback display starts hidden, and the template never renders
the inline message and the traceback panel at the same time. -/
theorem c6_error_outcomes (err : Option ErrResponse) :
    ((∃ m, classifySubmitError err = Outcome.inlineMessage m) ∨
      (∃ t, classifySubmitError err = Outcome.tracebackPanel t) ∨
      classifySubmitError err = Outcome.consoleLog) ∧
    (∀ m t, ¬(classifySubmitError err = Outcome.inlineMessage m ∧
              classifySubmitError err = Outcome.tracebackPanel t)) ∧
    (∀ r, err = some r → jsTruthyOpt r.message = true →
      classifySubmitError err = Outcome.inlineMessage (r.message.getD "")) ∧
    (∀ r, err = some r → jsTruthyOpt r.message = false → jsTruthyOpt r.traceback = true →
      classifySubmitError err = Outcome.tracebackPanel (r.traceback.getD "")) ∧
    (err = none → classifySubmitError err = Outcome.consoleLog) ∧
    initialErrorDisplay.showTraceback = false ∧
    (∀ f : MetsForm, ¬(showsInlineMessage f = true ∧ showsTracebackPanel f = true)) := by
  refine ⟨?_, ?_, ?_, ?_, ?_, rfl, ?_⟩
  · match err with
    | none => exact Or.inr (Or.inr rfl)
    | some r =>
        by_cases hm : jsTruthyOpt r.message = true
        · exact Or.inl ⟨r.message.getD "", by simp [classifySubmitError, hm]⟩
        · by_cases ht : jsTruthyOpt r.traceback = true
          · exact Or.inr (Or.inl ⟨r.traceback.getD "", by simp [classifySubmitError, hm, ht]⟩)
          · exact Or.inr (Or.inr (by simp [classifySubmitError, hm, ht]))
  · intro m t ⟨h1, h2⟩
    rw [h1] at h2
    exact Outcome.noConfusion h2
  · intro r he hm
    subst he
    simp [classifySubmitError, hm]
  · intro r he hm ht
    subst he
    simp [classifySubmitError, hm, ht]
  · intro he
    subst he
    rfl
  · intro f ⟨h1, h2⟩
    simp only [showsInlineMessage] at h1
    simp only [showsTracebackPanel, Bool.and_eq_true, Bool.not_eq_true'] at h2
    rw [h1] at h2
    exact Bool.noConfusion h2.1

/-- C6 witness: a structured response carrying the message bad resolves
to the inline-message outcome. -/
theorem c6_error_outcomes_witness :
    classifySubmitError (some { message := some "bad", traceback := none })
      = Outcome.inlineMessage "bad" :=
  (c6_error_outcomes (some { message := some "bad", traceback := none })).2.2.1
    { message := some "bad", traceback := none } rfl (by decide)

/-- C7 counterexample: removing the absent id c from a store holding
[abc, def] does not leave the order sequence unchanged: indexOf yields
-1, splice(-1, 1) deletes the LAST job, leaving [abc]. -/
theorem c7_counterexample :
    (onJobDismissed appTwo "c").jobIds ≠ appTwo.jobIds ∧
    (onJobDismissed appTwo "c").jobIds = ["abc"] ∧
    (onJobDismissed appTwo "c").jobs = appTwo.jobs := by
  refine ⟨?_, ?_, ?_⟩ <;> decide

/-- C7 (amended): removing an id absent from the store leaves the byId
mapping and the streams untouched, but drops the LAST element of the
order sequence (a true no-op only when the order sequence is empty). -/
theorem c7_remove_absent (s : AppState) (jobId : String)
    (h1 : jobId ∉ s.jobIds) (h2 : getAssoc s.jobs jobId = none) :
    (onJobDismissed s jobId).jobIds = s.jobIds.dropLast ∧
    (onJobDismissed s jobId).jobs = s.jobs ∧
    (onJobDismissed s jobId).streams = s.streams := by
  refine ⟨?_, ?_, rfl⟩
  · simp [onJobDismissed, jsIndexOf_not_mem h1, jsSpliceOne_neg_one]
  · simp [onJobDismissed, eraseAssoc_not_mem _ _ h2]

/-- C7 witness: removing the absent id c from the two-job store drops
def, the last job of the order sequence. -/
theorem c7_remove_absent_witness :
    "c" ∉ appTwo.jobIds ∧ getAssoc appTwo.jobs "c" = none ∧
    (onJobDismissed appTwo "c").jobIds = appTwo.jobIds.dropLast :=
  ⟨by decide, by decide, (c7_remove_absent appTwo "c" (by decide) (by decide)).1⟩

/-- C8 counterexample: with a subscription in place (recipient
user@example.org), the success handler of a later job creation (id ghi)
itself issues a notification request covering ghi — no resubmission by
the user is involved. -/
theorem c8_counterexample :
    (submitSuccess subscribedForm "ghi").2
      = [{ recipient := "user@example.org", jobs := ["ghi"] }] ∧
    ∃ req ∈ (submitSuccess subscribedForm "ghi").2, "ghi" ∈ req.jobs := by
  refine ⟨by decide, ?_⟩
  exact ⟨{ recipient := "user@example.org", jobs := ["ghi"] }, by decide, by decide⟩

/-- C8 (amended): the subscription request itself covers exactly the
job-id list passed at submission (a snapshot); but once a subscription
succeeded, every later successful job creation automatically issues one
further notification request covering just the new job id, without the
user resubmitting; with no subscription no such request is issued. -/
theorem c8_subscription_snapshot (recipient : String) (jobIds : List String)
    (f : MetsForm) (newJobId : String) :
    (registerForNotifications recipient jobIds).jobs = jobIds ∧
    (registerForNotifications recipient jobIds).recipient = recipient ∧
    (f.subscribedToNotifications = true →
      (submitSuccess f newJobId).2
        = [{ recipient := f.subscriptionAddress, jobs := [newJobId] }]) ∧
    (f.subscribedToNotifications = false → (submitSuccess f newJobId).2 = []) := by
  refine ⟨rfl, rfl, ?_, ?_⟩ <;> intro h <;> simp [submitSuccess, h]

/-- C9: the viewer URL derivation evaluated at the result string
https://example.org/iiif/xyz/manifest.json. JobDisplay (part_001),
ResultDisplay (import.js) and ManifestView (common.js) all derive
/view/xyz — split on /, last two segments, first one prefixed — but the
ManifestView of part_000 uses slice(-2, 2), which yields the empty
segment list and the broken link /view/ on the same input. -/
theorem c9_viewer_url_derivations :
    viewerUrl finishedJobAbc = some "/view/xyz" ∧
    resultDisplayViewerUrl "https://example.org/iiif/xyz/manifest.json" = "/view/xyz" ∧
    commonViewerUrl "https://example.org/iiif/xyz/manifest.json" = "/view/xyz" ∧
    manifestViewViewerUrl "https://example.org/iiif/xyz/manifest.json" = "/view/" ∧
    manifestViewViewerUrl "https://example.org/iiif/xyz/manifest.json"
      ≠ resultDisplayViewerUrl "https://example.org/iiif/xyz/manifest.json" := by
  refine ⟨?_, ?_, ?_, ?_, ?_⟩ <;> decide

/-- C10: after a successful submission the success handler resets the
URL input to the empty string and clears any prior error message, for
every prior form state and job id. -/
theorem c10_success_resets_form (f : MetsForm) (newJobId : String) :
    (submitSuccess f newJobId).1.metsUrl = "" ∧
    (submitSuccess f newJobId).1.errorMessage = none := by
  exact ⟨rfl, rfl⟩
